import Mathlib

/-!
Shallow embedding of `src/server/src/common/types.py` (hazards-website):
domain value types for hazard monitoring (enumerations, dates, date ranges,
image URLs, satellites, and the HazardInfoFilter query descriptor),
together with theorems settling the specification claims about them.

Python exceptions are modelled by `Except PyErr`.  The system clock read in
`Date.get_today()` is modelled by an explicit `today : Date` argument.
Strings are modelled over their character lists; the ASCII fragment of
Python's `str.upper`, `str.lower`, `str.isdigit`, `str.split` and `int()`
is embedded (the inputs handled by this library are ASCII).
-/

/-- The Python exceptions this module can raise:
`invalidValue` is `ValueError` (the spec's `InvalidValue`),
`ascendingParse` is `AscendingParseException` (the spec's
`AscendingParseError`), and `typeError` is `TypeError`. -/
inductive PyErr where
  | invalidValue
  | ascendingParse
  | typeError
deriving DecidableEq, Repr

instance {ε α : Type} [DecidableEq ε] [DecidableEq α] : DecidableEq (Except ε α) := fun a b =>
  match a, b with
  | .ok x, .ok y =>
    if h : x = y then .isTrue (congrArg Except.ok h)
    else .isFalse (fun he => h (Except.ok.inj he))
  | .error x, .error y =>
    if h : x = y then .isTrue (congrArg Except.error h)
    else .isFalse (fun he => h (Except.error.inj he))
  | .ok _, .error _ => .isFalse (fun he => Except.noConfusion he)
  | .error _, .ok _ => .isFalse (fun he => Except.noConfusion he)

/-- Python `str.upper()` restricted to ASCII. -/
def pyUpper (s : String) : String := ⟨s.data.map Char.toUpper⟩

/-- Python `str.lower()` restricted to ASCII. -/
def pyLower (s : String) : String := ⟨s.data.map Char.toLower⟩

/-- Python `c in s` for a single-character needle. -/
def pyContains (c : Char) (s : String) : Bool := s.data.any (fun x => x = c)

/-- Python `s.split(sep)` for a single-character separator, on char lists:
splits at every occurrence, keeping empty pieces (`"A__B"` gives
`["A", "", "B"]`, `""` gives `[""]`). -/
def pySplitChars (sep : Char) : List Char → List (List Char)
  | [] => [[]]
  | c :: cs =>
    match pySplitChars sep cs with
    | [] => [[]]
    | h :: t => if c = sep then [] :: h :: t else (c :: h) :: t

/-- Python `s.split(sep)` for a single-character separator. -/
def pySplitOn (sep : Char) (s : String) : List String :=
  (pySplitChars sep s.data).map String.mk

/-- Python `str.isdigit()` on a character list, restricted to ASCII:
nonempty and all decimal digits.  (Python also accepts some non-ASCII
digit characters; the inputs of this library are ASCII, so that case is
not modelled.) -/
def pyIsDigitChars (l : List Char) : Bool := !l.isEmpty && l.all Char.isDigit

/-- Python `str.isdigit()` restricted to ASCII. -/
def pyIsDigit (s : String) : Bool := pyIsDigitChars s.data

/-- Base-10 value of a list of decimal digits. -/
def digitsVal (l : List Char) : Nat :=
  l.foldl (fun a c => 10 * a + (c.toNat - 48)) 0

/-- Python `int(s)` on the character list of a string, for the shapes
arising in this module: an optional leading minus sign followed by ASCII
decimal digits; anything else raises `ValueError`.  (Surrounding
whitespace, a leading plus and underscore separators are accepted by
Python but never reach `int()` here, so they are not modelled.) -/
def pyIntChars : List Char → Except PyErr Int
  | [] => .error .invalidValue
  | c :: cs =>
    if c = '-' then
      if cs ≠ [] ∧ cs.all Char.isDigit then .ok (-(digitsVal cs : Int))
      else .error .invalidValue
    else
      if (c :: cs).all Char.isDigit then .ok ((digitsVal (c :: cs) : Int))
      else .error .invalidValue

/-- Python `int(s)` on a string. -/
def pyIntOfString (s : String) : Except PyErr Int := pyIntChars s.data

/-- Decimal digit characters of `n`, most significant first, with explicit
fuel (`n + 1` is always enough since the argument is divided by 10 at each
step). -/
def natDigitsAux : Nat → Nat → List Char
  | 0, _ => []
  | fuel + 1, n =>
    if n < 10 then [Nat.digitChar n]
    else natDigitsAux fuel (n / 10) ++ [Nat.digitChar (n % 10)]

/-- Python `str(n)` for a natural number. -/
def pyStrOfNat (n : Nat) : String := ⟨natDigitsAux (n + 1) n⟩

/-- Python `str(i)` for an integer: decimal digits with a leading `-` for
negative values. -/
def pyStrOfInt (i : Int) : String :=
  if i < 0 then ⟨'-' :: (pyStrOfNat i.natAbs).data⟩ else pyStrOfNat i.toNat

/-- `class HazardType(Enum)`: VOLCANO = 1, EARTHQUAKE = 2. -/
inductive HazardType where
  | VOLCANO
  | EARTHQUAKE
deriving DecidableEq, Fintype, Repr

/-- The Python member name of a `HazardType` (the key in `__members__`). -/
def HazardType.name : HazardType → String
  | .VOLCANO => "VOLCANO"
  | .EARTHQUAKE => "EARTHQUAKE"

/-- `HazardType.from_string`: uppercase the input and look it up among the
member names; raise `ValueError` on no match. -/
def HazardType.from_string (string : String) : Except PyErr HazardType :=
  if pyUpper string = "VOLCANO" then .ok .VOLCANO
  else if pyUpper string = "EARTHQUAKE" then .ok .EARTHQUAKE
  else .error .invalidValue

/-- `HazardType.to_string`: `self.name.lower()`. -/
def HazardType.to_string (h : HazardType) : String := pyLower h.name

/-- `class ImageType(Enum)`: the six processing kinds. -/
inductive ImageType where
  | GEO_BACKSCATTER
  | GEO_COHERENCE
  | GEO_INTERFEROGRAM
  | ORTHO_BACKSCATTER
  | ORTHO_COHERENCE
  | ORTHO_INTERFEROGRAM
deriving DecidableEq, Fintype, Repr

/-- The Python member name of an `ImageType`. -/
def ImageType.name : ImageType → String
  | .GEO_BACKSCATTER => "GEO_BACKSCATTER"
  | .GEO_COHERENCE => "GEO_COHERENCE"
  | .GEO_INTERFEROGRAM => "GEO_INTERFEROGRAM"
  | .ORTHO_BACKSCATTER => "ORTHO_BACKSCATTER"
  | .ORTHO_COHERENCE => "ORTHO_COHERENCE"
  | .ORTHO_INTERFEROGRAM => "ORTHO_INTERFEROGRAM"

/-- `ImageType.from_string`: uppercase and look up among member names;
`ValueError` on no match. -/
def ImageType.from_string (string : String) : Except PyErr ImageType :=
  if pyUpper string = "GEO_BACKSCATTER" then .ok .GEO_BACKSCATTER
  else if pyUpper string = "GEO_COHERENCE" then .ok .GEO_COHERENCE
  else if pyUpper string = "GEO_INTERFEROGRAM" then .ok .GEO_INTERFEROGRAM
  else if pyUpper string = "ORTHO_BACKSCATTER" then .ok .ORTHO_BACKSCATTER
  else if pyUpper string = "ORTHO_COHERENCE" then .ok .ORTHO_COHERENCE
  else if pyUpper string = "ORTHO_INTERFEROGRAM" then .ok .ORTHO_INTERFEROGRAM
  else .error .invalidValue

/-- `ImageType.to_string`: `self.name.lower()`. -/
def ImageType.to_string (i : ImageType) : String := pyLower i.name

/-- `class SatelliteEnum(Enum)`: the eleven satellite identifiers. -/
inductive SatelliteEnum where
  | ERS
  | ENV
  | S1A
  | RS1
  | RS2
  | CSK
  | TSX
  | JERS
  | ALOS
  | ALOS2
  | NISAR
deriving DecidableEq, Fintype, Repr

/-- The Python member name of a `SatelliteEnum`. -/
def SatelliteEnum.name : SatelliteEnum → String
  | .ERS => "ERS"
  | .ENV => "ENV"
  | .S1A => "S1A"
  | .RS1 => "RS1"
  | .RS2 => "RS2"
  | .CSK => "CSK"
  | .TSX => "TSX"
  | .JERS => "JERS"
  | .ALOS => "ALOS"
  | .ALOS2 => "ALOS2"
  | .NISAR => "NISAR"

/-- `SatelliteEnum.from_string`: uppercase and look up among member names;
`ValueError` on no match. -/
def SatelliteEnum.from_string (string : String) : Except PyErr SatelliteEnum :=
  if pyUpper string = "ERS" then .ok .ERS
  else if pyUpper string = "ENV" then .ok .ENV
  else if pyUpper string = "S1A" then .ok .S1A
  else if pyUpper string = "RS1" then .ok .RS1
  else if pyUpper string = "RS2" then .ok .RS2
  else if pyUpper string = "CSK" then .ok .CSK
  else if pyUpper string = "TSX" then .ok .TSX
  else if pyUpper string = "JERS" then .ok .JERS
  else if pyUpper string = "ALOS" then .ok .ALOS
  else if pyUpper string = "ALOS2" then .ok .ALOS2
  else if pyUpper string = "NISAR" then .ok .NISAR
  else .error .invalidValue

/-- `SatelliteEnum.to_string`: `self.name.upper()`. -/
def SatelliteEnum.to_string (s : SatelliteEnum) : String := pyUpper s.name

/-- `class Date`: wraps an 8-character `YYYYMMDD` string.  Values are built
through `Date.make` (the Python constructor), which validates first. -/
structure Date where
  date : String
deriving DecidableEq, Repr

/-- The character-list core of `Date.is_valid_date`: length 8, `isdigit`,
month slice `[4:6]` in `[1, 12]`, day slice `[6:]` in `[1, 31]`. -/
def validDateChars (l : List Char) : Bool :=
  if l.length = 8 then
    if pyIsDigitChars l then
      if 1 ≤ digitsVal ((l.drop 4).take 2) ∧
          digitsVal ((l.drop 4).take 2) ≤ 12 then
        if 1 ≤ digitsVal (l.drop 6) ∧ digitsVal (l.drop 6) ≤ 31 then
          true
        else false
      else false
    else false
  else false

/-- `Date.is_valid_date`: checks that the string is of format `YYYYMMDD`
(no month-length or leap-year check). -/
def Date.is_valid_date (possible_date : String) : Bool :=
  validDateChars possible_date.data

/-- `Date.__init__`: store the string if `is_valid_date`, else raise
`ValueError`. -/
def Date.make (date : String) : Except PyErr Date :=
  if Date.is_valid_date date then .ok ⟨date⟩ else .error .invalidValue

/-- `Date.to_integer`: `int(self.date)`. -/
def Date.to_integer (d : Date) : Except PyErr Int := pyIntOfString d.date

/-- A Python value as passed to the built-in `int(...)` in this module:
either a `str` or a `Date` instance. -/
inductive PyVal where
  | pstr (s : String)
  | pdate (d : Date)

/-- The built-in `int(...)` on the values it receives in this module.
`Date` defines neither `__int__` nor `__index__`, so `int` applied to a
`Date` instance raises `TypeError`. -/
def pyIntBuiltin : PyVal → Except PyErr Int
  | .pstr s => pyIntOfString s
  | .pdate _ => .error .typeError

/-- `class DateRange`: start date plus optional end date (`None` means the
range is open-ended up to the current date). -/
structure DateRange where
  start : Date
  «end» : Option Date := none
deriving DecidableEq, Repr

/-- `DateRange.date_in_range`: the source evaluates
`int(self.start) <= int(date.date) <= int(end_date)` left to right, where
`self.start` and `end_date` are `Date` objects.  `today` stands for the
`Date.get_today()` clock read used when `self.end` is `None`. -/
def DateRange.date_in_range (today : Date) (r : DateRange) (date : Date) :
    Except PyErr Bool := do
  let end_date : Date := match r.«end» with | some e => e | none => today
  let a ← pyIntBuiltin (.pdate r.start)
  let b ← pyIntBuiltin (.pstr date.date)
  let c ← pyIntBuiltin (.pdate end_date)
  pure (decide (a ≤ b) && decide (b ≤ c))

/-- `valid_extensions` from `ImageURL.is_valid_url`. -/
def valid_extensions : List String := [".jpg", ".png", ".tif", ".gif"]

/-- Index of the last occurrence of `c` in `l`, if any. -/
def lastIndexOf (c : Char) : List Char → Option Nat
  | [] => none
  | x :: xs =>
    match lastIndexOf c xs with
    | some i => some (i + 1)
    | none => if x = c then some 0 else none

/-- `os.path.splitext` (posixpath): the extension starts at the last dot,
provided that dot lies after the last slash and at least one non-dot
character stands between them (so leading dots of the basename never start
an extension). -/
def splitext (p : String) : String × String :=
  let l := p.data
  match lastIndexOf '.' l with
  | none => (p, "")
  | some dotIndex =>
    let filenameIndex : Nat :=
      match lastIndexOf '/' l with
      | none => 0
      | some sepIndex => sepIndex + 1
    if filenameIndex ≤ dotIndex then
      if ((l.drop filenameIndex).take (dotIndex - filenameIndex)).any
          (fun c => c ≠ '.') then
        (⟨l.take dotIndex⟩, ⟨l.drop dotIndex⟩)
      else (p, "")
    else (p, "")

/-- `class ImageURL`: wraps a URL string validated by extension only. -/
structure ImageURL where
  url : String
deriving DecidableEq, Repr

/-- `ImageURL.is_valid_url`: false iff the `splitext` extension is not one
of `valid_extensions`. -/
def ImageURL.is_valid_url (url : String) : Bool :=
  if (splitext url).2 ∉ valid_extensions then false else true

/-- `ImageURL.__init__`: store the string if `is_valid_url`, else raise
`ValueError`. -/
def ImageURL.make (url : String) : Except PyErr ImageURL :=
  if ImageURL.is_valid_url url then .ok ⟨url⟩ else .error .invalidValue

/-- `@dataclass class Satellite`: a satellite identifier plus an orbital
pass direction.  Dataclass equality is structural on both fields. -/
structure Satellite where
  satellite_id : SatelliteEnum
  ascending : Bool
deriving DecidableEq, Fintype, Repr

/-- `Satellite.to_string`: `"SATID_ASC"` or `"SATID_DESC"`. -/
def Satellite.to_string (s : Satellite) : String :=
  let sat_id_str := s.satellite_id.to_string
  if s.ascending then sat_id_str ++ "_ASC" else sat_id_str ++ "_DESC"

/-- `Satellite.__hash__` is `hash(self.to_string())`: Python's string hash
is a fixed (per-process) function of the string, so the hash is modelled
by its key, the string form. -/
def Satellite.hashKey (s : Satellite) : String := s.to_string

/-- The tail of `Satellite.from_string` shared by all surface forms: look
up the satellite identifier (raising `ValueError` for an unknown one),
build both variants and select by the normalized suffix.  The final `[]`
arm is unreachable: the suffix was already checked to be one of
`asc`/`desc`/`both` (Python would fall off the function end there). -/
def Satellite.from_parts (sat_id : String) (asc_or_desc : String) :
    Except PyErr (List Satellite) := do
  let sat_enum ← SatelliteEnum.from_string sat_id
  let asc_satellite : Satellite := ⟨sat_enum, true⟩
  let desc_satellite : Satellite := ⟨sat_enum, false⟩
  if asc_or_desc = "both" then pure [asc_satellite, desc_satellite]
  else if asc_or_desc = "asc" then pure [asc_satellite]
  else if asc_or_desc = "desc" then pure [desc_satellite]
  else pure []

/-- `Satellite.from_string`: when the input contains `_`, split on every
underscore and unpack into exactly two parts (Python's tuple unpacking
raises `ValueError` when `split` yields any other number of parts), then
check the lowercased suffix against `asc`/`desc`/`both`, raising
`AscendingParseException` otherwise; without `_` the whole input is the
identifier and the suffix defaults to `both`. -/
def Satellite.from_string (raw_satellite : String) :
    Except PyErr (List Satellite) :=
  if pyContains '_' raw_satellite then
    match pySplitOn '_' raw_satellite with
    | [sat_id, rawSuffix] =>
      let asc_or_desc := pyLower rawSuffix
      if asc_or_desc ∉ (["asc", "desc", "both"] : List String) then
        .error .ascendingParse
      else Satellite.from_parts sat_id asc_or_desc
    | _ => .error .invalidValue
  else Satellite.from_parts raw_satellite "both"

/-- `class HazardInfoFilter`: normalized query constraints. -/
structure HazardInfoFilter where
  satellites : Option (List Satellite)
  image_types : Option (List ImageType)
  max_num_images : Int
  date_range : Option DateRange
deriving DecidableEq, Repr

/-- `HazardInfoFilter.__init__`.  `today` stands for the
`Date.get_today()` clock read.  `if last_n_days:` is Python truthiness:
it takes the subtraction branch exactly when `last_n_days` is present and
nonzero.  The start date is `Date(str(int(Date.get_today().date) -
last_n_days))`, whose construction can raise `ValueError`. -/
def HazardInfoFilter.make (today : Date)
    (satellites : Option (List Satellite))
    (image_types : Option (List ImageType))
    (date_range : Option DateRange)
    (max_num_images : Int)
    (last_n_days : Option Int) : Except PyErr HazardInfoFilter :=
  match last_n_days with
  | some n =>
    if n ≠ 0 then do
      let t ← pyIntOfString today.date
      let last_n_days_date ← Date.make (pyStrOfInt (t - n))
      match date_range with
      | none =>
        pure ⟨satellites, image_types, max_num_images,
          some ⟨last_n_days_date, none⟩⟩
      | some dr =>
        pure ⟨satellites, image_types, max_num_images,
          some ⟨last_n_days_date, dr.«end»⟩⟩
    else pure ⟨satellites, image_types, max_num_images, date_range⟩
  | none => pure ⟨satellites, image_types, max_num_images, date_range⟩

example : HazardType.from_string "volcano" = .ok .VOLCANO := by decide
example : HazardType.from_string "typhoon" = .error .invalidValue := by decide
example : SatelliteEnum.from_string "s1a" = .ok .S1A := by decide
example : (SatelliteEnum.S1A).to_string = "S1A" := by decide
example : Date.make "20190411" = .ok ⟨"20190411"⟩ := by decide
example : Date.make "20190432" = .error .invalidValue := by decide
example : Date.to_integer ⟨"20190411"⟩ = .ok 20190411 := by decide
example : splitext "foo.tif" = ("foo", ".tif") := by decide
example : splitext ".bashrc" = (".bashrc", "") := by decide
example : splitext "a/b.c/d" = ("a/b.c/d", "") := by decide
example : ImageURL.make "foo.bmp" = .error .invalidValue := by decide
example : Satellite.from_string "S1A" = .ok [⟨.S1A, true⟩, ⟨.S1A, false⟩] := by decide
example : Satellite.from_string "S1A_ASC" = .ok [⟨.S1A, true⟩] := by decide
example : Satellite.from_string "S1A_XYZ" = .error .ascendingParse := by decide
example : Satellite.from_string "S1A_X_Y" = .error .invalidValue := by decide
example :
    HazardInfoFilter.make ⟨"20251012"⟩ none none none 5 (some 10) =
      .ok ⟨none, none, 5, some ⟨⟨"20251002"⟩, none⟩⟩ := by decide
example :
    HazardInfoFilter.make ⟨"20200101"⟩ none none none 5 (some 1) =
      .error .invalidValue := by decide

/-- `int()` succeeds on a nonempty all-digit character list and returns
its base-10 value. -/
theorem pyIntChars_digits (l : List Char) (hne : l ≠ [])
    (hdig : l.all Char.isDigit = true) :
    pyIntChars l = .ok ((digitsVal l : Int)) := by
  cases l with
  | nil => exact absurd rfl hne
  | cons c cs =>
    have hc : ¬(c = '-') := by
      intro h
      rw [List.all_cons, h] at hdig
      simp [Char.isDigit] at hdig
    simp only [pyIntChars]
    rw [if_neg hc, if_pos hdig]

/-- Reducing a bind of a success value. -/
theorem exceptBindOk {ε α β : Type} (a : α) (f : α → Except ε β) :
    (Except.ok a >>= f : Except ε β) = f a := rfl

/-- Reducing a bind of an error value. -/
theorem exceptBindErr {ε α β : Type} (e : ε) (f : α → Except ε β) :
    ((Except.error e : Except ε α) >>= f) = .error e := rfl

/-- A validly constructed date string is nonempty and all digits. -/
theorem validDateChars_digits (l : List Char) (h : validDateChars l = true) :
    l ≠ [] ∧ l.all Char.isDigit = true := by
  unfold validDateChars pyIsDigitChars at h
  split_ifs at h with h1 h2 h3 h4
  rw [Bool.and_eq_true, Bool.not_eq_true'] at h2
  refine ⟨fun hnil => ?_, h2.2⟩
  rw [hnil] at h2
  exact absurd h2.1 (by decide)

/-- `Date.is_valid_date` unfolded into its conjuncts. -/
theorem validDateChars_iff (l : List Char) :
    validDateChars l = true ↔
      (l.length = 8 ∧ l.all Char.isDigit = true ∧
        1 ≤ digitsVal ((l.drop 4).take 2) ∧
        digitsVal ((l.drop 4).take 2) ≤ 12 ∧
        1 ≤ digitsVal (l.drop 6) ∧ digitsVal (l.drop 6) ≤ 31) := by
  unfold validDateChars pyIsDigitChars
  constructor
  · intro h
    split_ifs at h with h1 h2 h3 h4
    rw [Bool.and_eq_true] at h2
    exact ⟨h1, h2.2, h3.1, h3.2, h4.1, h4.2⟩
  · rintro ⟨l8, dig, m1, m2, d1, d2⟩
    have hne : l.isEmpty = false := by
      cases l with
      | nil => simp at l8
      | cons c cs => rfl
    rw [if_pos l8, if_pos (by rw [hne, dig]; rfl), if_pos ⟨m1, m2⟩,
      if_pos ⟨d1, d2⟩]

/-- A successful `Date` construction stores the input unchanged, and the
input passed the validity check. -/
theorem date_make_ok (s : String) (d : Date) (h : Date.make s = .ok d) :
    d = ⟨s⟩ ∧ Date.is_valid_date s = true := by
  unfold Date.make at h
  by_cases hv : Date.is_valid_date s = true
  · rw [if_pos hv] at h
    exact ⟨(Except.ok.inj h).symm, hv⟩
  · rw [if_neg hv] at h
    exact Except.noConfusion h

/-- C1 (code bug in the source): `DateRange.date_in_range` never returns a
boolean: it evaluates `int(self.start)` with `self.start` a `Date` object,
which raises `TypeError` on every call, for every validly constructed
`DateRange` and `Date` (the spec says it returns
`start.to_integer() ≤ d.to_integer() ≤ (end or today).to_integer()`). -/
theorem date_in_range_always_raises :
    ∀ (today : Date) (r : DateRange) (d : Date),
      DateRange.date_in_range today r d = .error .typeError := by
  intro today r d
  rfl

/-- C9: passing `last_n_days = 0` to the `HazardInfoFilter` constructor
behaves exactly as passing no `last_n_days`: the explicit date range
(possibly absent) is stored unchanged and no subtraction happens. -/
theorem filter_zero_last_n_days_ignored :
    ∀ (today : Date) (sats : Option (List Satellite))
      (its : Option (List ImageType)) (dr : Option DateRange) (mni : Int),
      HazardInfoFilter.make today sats its dr mni (some 0) =
          .ok ⟨sats, its, mni, dr⟩ ∧
        HazardInfoFilter.make today sats its dr mni (some 0) =
          HazardInfoFilter.make today sats its dr mni none := by
  intro today sats its dr mni
  exact ⟨rfl, rfl⟩

/-- C2 counterexample: with `last_n_days = 0` provided, the filter keeps
`date_range = None`; the claimed output (start = today minus 0, end unset)
is not produced. -/
theorem filter_last_n_days_zero_counterexample :
    HazardInfoFilter.make ⟨"20251012"⟩ none none none 5 (some 0) =
        .ok ⟨none, none, 5, none⟩ ∧
      HazardInfoFilter.make ⟨"20251012"⟩ none none none 5 (some 0) ≠
        .ok ⟨none, none, 5, some ⟨⟨"20251012"⟩, none⟩⟩ := by
  exact ⟨rfl, by decide⟩

/-- C2 (amended: the subtraction branch requires `last_n_days` present
and nonzero, because `if last_n_days:` is Python truthiness): with a
nonzero `last_n_days`, a successfully constructed filter has
`date_range.start = Date(str(int(today) - last_n_days))` and
`date_range.end` equal to the explicit range's end when one was given and
unset otherwise; with `last_n_days` absent or zero the explicit date
range is stored unchanged. -/
theorem filter_last_n_days_spec :
    ∀ (today : Date) (sats : Option (List Satellite))
      (its : Option (List ImageType)) (dr : Option DateRange) (mni : Int),
      (∀ (n : Int) (f : HazardInfoFilter),
          Date.is_valid_date today.date = true → n ≠ 0 →
          HazardInfoFilter.make today sats its dr mni (some n) = .ok f →
          f = ⟨sats, its, mni,
            some ⟨⟨pyStrOfInt ((digitsVal today.date.data : Int) - n)⟩,
              match dr with | some r => r.«end» | none => none⟩⟩) ∧
        HazardInfoFilter.make today sats its dr mni none =
          .ok ⟨sats, its, mni, dr⟩ ∧
        HazardInfoFilter.make today sats its dr mni (some 0) =
          .ok ⟨sats, its, mni, dr⟩ := by
  intro today sats its dr mni
  refine ⟨?_, rfl, rfl⟩
  intro n f hvalid hn hmk
  simp only [HazardInfoFilter.make] at hmk
  rw [if_pos hn] at hmk
  obtain ⟨hne, hdig⟩ := validDateChars_digits today.date.data hvalid
  simp only [pyIntOfString] at hmk
  rw [pyIntChars_digits today.date.data hne hdig, exceptBindOk] at hmk
  cases hd : Date.make (pyStrOfInt ((digitsVal today.date.data : Int) - n)) with
  | error e =>
    rw [hd, exceptBindErr] at hmk
    exact Except.noConfusion hmk
  | ok d =>
    obtain ⟨rfl, -⟩ := date_make_ok _ _ hd
    rw [hd, exceptBindOk] at hmk
    cases dr with
    | none => exact (Except.ok.inj hmk).symm
    | some r => exact (Except.ok.inj hmk).symm

/-- C10: when `last_n_days` is positive and today's numeral minus
`last_n_days` fails the `Date` validity check, the `HazardInfoFilter`
constructor raises `InvalidValue` from the `Date` constructor and no
filter is produced. -/
theorem filter_invalid_computed_date_fails :
    ∀ (today : Date) (sats : Option (List Satellite))
      (its : Option (List ImageType)) (dr : Option DateRange) (mni : Int)
      (n : Int),
      Date.is_valid_date today.date = true → 0 < n →
      Date.is_valid_date
          (pyStrOfInt ((digitsVal today.date.data : Int) - n)) = false →
      HazardInfoFilter.make today sats its dr mni (some n) =
        .error .invalidValue := by
  intro today sats its dr mni n hvalid hpos hbad
  simp only [HazardInfoFilter.make]
  rw [if_pos (by omega : n ≠ 0)]
  obtain ⟨hne, hdig⟩ := validDateChars_digits today.date.data hvalid
  simp only [pyIntOfString]
  rw [pyIntChars_digits today.date.data hne hdig, exceptBindOk]
  have hDm : Date.make (pyStrOfInt ((digitsVal today.date.data : Int) - n)) =
      .error .invalidValue := by
    unfold Date.make
    rw [if_neg (by simp [hbad])]
  rw [hDm, exceptBindErr]

/-- Witness for C2: with today = 2025-10-12 and `last_n_days = 10`, the
computed start is the numeral 20251002. -/
theorem filter_last_n_days_spec_witness :
    (⟨none, none, 5, some ⟨⟨"20251002"⟩, none⟩⟩ : HazardInfoFilter) =
      ⟨none, none, 5,
        some ⟨⟨pyStrOfInt ((digitsVal ("20251012".data) : Int) - 10)⟩,
          none⟩⟩ :=
  (filter_last_n_days_spec ⟨"20251012"⟩ none none none 5).1 10
    ⟨none, none, 5, some ⟨⟨"20251002"⟩, none⟩⟩ (by decide) (by decide)
    (by decide)

/-- Witness for C10: today = 2020-01-01 minus 1 day gives the numeral
20200100, whose day field is 0, so construction fails. -/
theorem filter_invalid_computed_date_fails_witness :
    HazardInfoFilter.make ⟨"20200101"⟩ none none none 5 (some 1) =
      .error .invalidValue :=
  filter_invalid_computed_date_fails ⟨"20200101"⟩ none none none 5 1
    (by decide) (by decide) (by decide)

/-- C3: `Date(s)` succeeds iff `s` has 8 characters, all decimal digits,
month field (characters 5-6) in `[1, 12]` and day field (characters 7-8)
in `[1, 31]`; on success `to_integer()` is the base-10 value of `s`, and
on failure construction raises `InvalidValue`. -/
theorem date_construction_spec :
    ∀ s : String,
      ((∃ d, Date.make s = .ok d) ↔
        (s.data.length = 8 ∧ s.data.all Char.isDigit = true ∧
          1 ≤ digitsVal ((s.data.drop 4).take 2) ∧
          digitsVal ((s.data.drop 4).take 2) ≤ 12 ∧
          1 ≤ digitsVal (s.data.drop 6) ∧ digitsVal (s.data.drop 6) ≤ 31)) ∧
      (∀ d, Date.make s = .ok d →
          Date.to_integer d = .ok ((digitsVal s.data : Int))) ∧
      ((∃ d, Date.make s = .ok d) ∨ Date.make s = .error .invalidValue) := by
  intro s
  refine ⟨?_, ?_, ?_⟩
  · rw [← validDateChars_iff]
    constructor
    · rintro ⟨d, hd⟩
      exact (date_make_ok s d hd).2
    · intro hv
      exact ⟨⟨s⟩, by
        unfold Date.make
        rw [if_pos (show Date.is_valid_date s = true from hv)]⟩
  · intro d hd
    obtain ⟨rfl, hv⟩ := date_make_ok s d hd
    obtain ⟨hne, hdig⟩ := validDateChars_digits s.data hv
    exact pyIntChars_digits s.data hne hdig
  · by_cases hv : Date.is_valid_date s = true
    · exact Or.inl ⟨⟨s⟩, by unfold Date.make; rw [if_pos hv]⟩
    · exact Or.inr (by unfold Date.make; rw [if_neg hv])

/-- Witness for C3: `Date("20190411")` succeeds and converts to the
integer 20190411. -/
theorem date_construction_spec_witness :
    Date.to_integer ⟨"20190411"⟩ = .ok 20190411 :=
  (date_construction_spec "20190411").2.1 ⟨"20190411"⟩ (by decide)

/-- C4: for every satellite identifier, the bare identifier and the
`_BOTH` form parse to the ordered pair (ascending, descending), `_ASC` to
just the ascending variant and `_DESC` to just the descending variant. -/
theorem satellite_from_string_valid_forms :
    ∀ e : SatelliteEnum,
      Satellite.from_string e.name = .ok [⟨e, true⟩, ⟨e, false⟩] ∧
        Satellite.from_string (e.name ++ "_BOTH") =
          .ok [⟨e, true⟩, ⟨e, false⟩] ∧
        Satellite.from_string (e.name ++ "_ASC") = .ok [⟨e, true⟩] ∧
        Satellite.from_string (e.name ++ "_DESC") = .ok [⟨e, false⟩] := by
  intro e
  cases e <;> exact ⟨by decide, by decide, by decide, by decide⟩

/-- Case analysis step for a single `if` returning `Except.ok`. -/
theorem ifOkStep {α : Type} (c : Prop) [Decidable c] (v : α)
    (rest : Except PyErr α) (m : α)
    (h : (if c then Except.ok v else rest) = .ok m) :
    (c ∧ v = m) ∨ (¬c ∧ rest = .ok m) := by
  by_cases hc : c
  · rw [if_pos hc] at h
    exact Or.inl ⟨hc, Except.ok.inj h⟩
  · rw [if_neg hc] at h
    exact Or.inr ⟨hc, h⟩

/-- `HazardType.from_string` succeeds exactly on strings whose uppercase
form is a member name. -/
theorem hazardType_from_string_iff (s : String) (m : HazardType) :
    HazardType.from_string s = .ok m ↔ pyUpper s = m.name := by
  constructor
  · intro h
    unfold HazardType.from_string at h
    rcases ifOkStep _ _ _ _ h with ⟨hc, rfl⟩ | ⟨-, h⟩
    · exact hc
    rcases ifOkStep _ _ _ _ h with ⟨hc, rfl⟩ | ⟨-, h⟩
    · exact hc
    exact Except.noConfusion h
  · intro h
    cases m <;> (unfold HazardType.from_string; rw [h]; decide)

/-- `HazardType.from_string` raises `InvalidValue` when no member name
matches. -/
theorem hazardType_from_string_unknown (s : String)
    (h : ∀ m : HazardType, pyUpper s ≠ m.name) :
    HazardType.from_string s = .error .invalidValue := by
  unfold HazardType.from_string
  rw [if_neg (show ¬(pyUpper s = "VOLCANO") from h .VOLCANO),
    if_neg (show ¬(pyUpper s = "EARTHQUAKE") from h .EARTHQUAKE)]

/-- `ImageType.from_string` succeeds exactly on strings whose uppercase
form is a member name. -/
theorem imageType_from_string_iff (s : String) (m : ImageType) :
    ImageType.from_string s = .ok m ↔ pyUpper s = m.name := by
  constructor
  · intro h
    unfold ImageType.from_string at h
    rcases ifOkStep _ _ _ _ h with ⟨hc, rfl⟩ | ⟨-, h⟩
    · exact hc
    rcases ifOkStep _ _ _ _ h with ⟨hc, rfl⟩ | ⟨-, h⟩
    · exact hc
    rcases ifOkStep _ _ _ _ h with ⟨hc, rfl⟩ | ⟨-, h⟩
    · exact hc
    rcases ifOkStep _ _ _ _ h with ⟨hc, rfl⟩ | ⟨-, h⟩
    · exact hc
    rcases ifOkStep _ _ _ _ h with ⟨hc, rfl⟩ | ⟨-, h⟩
    · exact hc
    rcases ifOkStep _ _ _ _ h with ⟨hc, rfl⟩ | ⟨-, h⟩
    · exact hc
    exact Except.noConfusion h
  · intro h
    cases m <;> (unfold ImageType.from_string; rw [h]; decide)

/-- `ImageType.from_string` raises `InvalidValue` when no member name
matches. -/
theorem imageType_from_string_unknown (s : String)
    (h : ∀ m : ImageType, pyUpper s ≠ m.name) :
    ImageType.from_string s = .error .invalidValue := by
  unfold ImageType.from_string
  rw [if_neg (show ¬(pyUpper s = "GEO_BACKSCATTER") from h .GEO_BACKSCATTER),
    if_neg (show ¬(pyUpper s = "GEO_COHERENCE") from h .GEO_COHERENCE),
    if_neg (show ¬(pyUpper s = "GEO_INTERFEROGRAM") from h .GEO_INTERFEROGRAM),
    if_neg (show ¬(pyUpper s = "ORTHO_BACKSCATTER") from h .ORTHO_BACKSCATTER),
    if_neg (show ¬(pyUpper s = "ORTHO_COHERENCE") from h .ORTHO_COHERENCE),
    if_neg (show ¬(pyUpper s = "ORTHO_INTERFEROGRAM") from
      h .ORTHO_INTERFEROGRAM)]

/-- `SatelliteEnum.from_string` succeeds exactly on strings whose
uppercase form is a member name. -/
theorem satelliteEnum_from_string_iff (s : String) (m : SatelliteEnum) :
    SatelliteEnum.from_string s = .ok m ↔ pyUpper s = m.name := by
  constructor
  · intro h
    unfold SatelliteEnum.from_string at h
    rcases ifOkStep _ _ _ _ h with ⟨hc, rfl⟩ | ⟨-, h⟩
    · exact hc
    rcases ifOkStep _ _ _ _ h with ⟨hc, rfl⟩ | ⟨-, h⟩
    · exact hc
    rcases ifOkStep _ _ _ _ h with ⟨hc, rfl⟩ | ⟨-, h⟩
    · exact hc
    rcases ifOkStep _ _ _ _ h with ⟨hc, rfl⟩ | ⟨-, h⟩
    · exact hc
    rcases ifOkStep _ _ _ _ h with ⟨hc, rfl⟩ | ⟨-, h⟩
    · exact hc
    rcases ifOkStep _ _ _ _ h with ⟨hc, rfl⟩ | ⟨-, h⟩
    · exact hc
    rcases ifOkStep _ _ _ _ h with ⟨hc, rfl⟩ | ⟨-, h⟩
    · exact hc
    rcases ifOkStep _ _ _ _ h with ⟨hc, rfl⟩ | ⟨-, h⟩
    · exact hc
    rcases ifOkStep _ _ _ _ h with ⟨hc, rfl⟩ | ⟨-, h⟩
    · exact hc
    rcases ifOkStep _ _ _ _ h with ⟨hc, rfl⟩ | ⟨-, h⟩
    · exact hc
    rcases ifOkStep _ _ _ _ h with ⟨hc, rfl⟩ | ⟨-, h⟩
    · exact hc
    exact Except.noConfusion h
  · intro h
    cases m <;> (unfold SatelliteEnum.from_string; rw [h]; decide)

/-- `SatelliteEnum.from_string` raises `InvalidValue` when no member name
matches. -/
theorem satelliteEnum_from_string_unknown (s : String)
    (h : ∀ m : SatelliteEnum, pyUpper s ≠ m.name) :
    SatelliteEnum.from_string s = .error .invalidValue := by
  unfold SatelliteEnum.from_string
  rw [if_neg (show ¬(pyUpper s = "ERS") from h .ERS),
    if_neg (show ¬(pyUpper s = "ENV") from h .ENV),
    if_neg (show ¬(pyUpper s = "S1A") from h .S1A),
    if_neg (show ¬(pyUpper s = "RS1") from h .RS1),
    if_neg (show ¬(pyUpper s = "RS2") from h .RS2),
    if_neg (show ¬(pyUpper s = "CSK") from h .CSK),
    if_neg (show ¬(pyUpper s = "TSX") from h .TSX),
    if_neg (show ¬(pyUpper s = "JERS") from h .JERS),
    if_neg (show ¬(pyUpper s = "ALOS") from h .ALOS),
    if_neg (show ¬(pyUpper s = "ALOS2") from h .ALOS2),
    if_neg (show ¬(pyUpper s = "NISAR") from h .NISAR)]

/-- C5 counterexample: `"S1A_X_Y"` contains an underscore and no valid
suffix under any reading, yet fails with `InvalidValue` (tuple-unpacking
`ValueError`), not `AscendingParseError`; `"XX_FOO"` has an unknown
satellite identifier yet fails with `AscendingParseError`, not
`InvalidValue`, because the suffix is rejected first. -/
theorem satellite_from_string_error_counterexample :
    Satellite.from_string "S1A_X_Y" = .error .invalidValue ∧
      Satellite.from_string "S1A_X_Y" ≠ .error .ascendingParse ∧
      Satellite.from_string "XX_FOO" = .error .ascendingParse ∧
      Satellite.from_string "XX_FOO" ≠ .error .invalidValue := by
  exact ⟨by decide, by decide, by decide, by decide⟩

/-- C5 (amended): splitting on `_` must yield exactly two parts for the
`AscendingParseError` path; more than two parts fail with `InvalidValue`
from tuple unpacking; and an unknown satellite identifier fails with
`InvalidValue` only after the suffix stage passes (no underscore, or
exactly one underscore with suffix asc/desc/both case-insensitively). -/
theorem satellite_from_string_errors :
    ∀ raw : String,
      (∀ sat_id rawSuffix : String,
          pyContains '_' raw = true →
          pySplitOn '_' raw = [sat_id, rawSuffix] →
          pyLower rawSuffix ∉ (["asc", "desc", "both"] : List String) →
          Satellite.from_string raw = .error .ascendingParse) ∧
      (pyContains '_' raw = true →
          (∀ a b : String, pySplitOn '_' raw ≠ [a, b]) →
          Satellite.from_string raw = .error .invalidValue) ∧
      (pyContains '_' raw = false →
          (∀ m : SatelliteEnum, pyUpper raw ≠ m.name) →
          Satellite.from_string raw = .error .invalidValue) ∧
      (∀ sat_id rawSuffix : String,
          pyContains '_' raw = true →
          pySplitOn '_' raw = [sat_id, rawSuffix] →
          pyLower rawSuffix ∈ (["asc", "desc", "both"] : List String) →
          (∀ m : SatelliteEnum, pyUpper sat_id ≠ m.name) →
          Satellite.from_string raw = .error .invalidValue) := by
  intro raw
  refine ⟨?_, ?_, ?_, ?_⟩
  · intro sat_id rawSuffix hc hsplit hnot
    unfold Satellite.from_string
    rw [if_pos hc, hsplit]
    show (if pyLower rawSuffix ∉ (["asc", "desc", "both"] : List String) then
        (Except.error .ascendingParse : Except PyErr (List Satellite))
      else Satellite.from_parts sat_id (pyLower rawSuffix)) =
      .error .ascendingParse
    rw [if_pos hnot]
  · intro hc hne
    unfold Satellite.from_string
    rw [if_pos hc]
    cases hs : pySplitOn '_' raw with
    | nil => rfl
    | cons a t =>
      cases t with
      | nil => rfl
      | cons b t2 =>
        cases t2 with
        | nil => exact absurd hs (hne a b)
        | cons c t3 => rfl
  · intro hc hunk
    unfold Satellite.from_string
    rw [if_neg (by simp [hc])]
    unfold Satellite.from_parts
    rw [satelliteEnum_from_string_unknown raw hunk, exceptBindErr]
  · intro sat_id rawSuffix hc hsplit hmem hunk
    unfold Satellite.from_string
    rw [if_pos hc, hsplit]
    show (if pyLower rawSuffix ∉ (["asc", "desc", "both"] : List String) then
        (Except.error .ascendingParse : Except PyErr (List Satellite))
      else Satellite.from_parts sat_id (pyLower rawSuffix)) =
      .error .invalidValue
    rw [if_neg (not_not_intro hmem)]
    unfold Satellite.from_parts
    rw [satelliteEnum_from_string_unknown sat_id hunk, exceptBindErr]

/-- Witness for C5 (amended): `"S1A_XYZ"` fails with
`AscendingParseError`. -/
theorem satellite_from_string_errors_witness :
    Satellite.from_string "S1A_XYZ" = .error .ascendingParse :=
  (satellite_from_string_errors "S1A_XYZ").1 "S1A" "XYZ" (by decide)
    (by decide) (by decide)

/-- C6: each enumeration parses by case-insensitive member-name lookup
(round trip from `to_string` succeeds, parsing succeeds exactly on case
variants of member names, anything else raises `InvalidValue`), and
`to_string` renders HazardType/ImageType lowercase but SatelliteEnum
uppercase (its member names, which are uppercase, unchanged). -/
theorem enum_string_roundtrip :
    (∀ m : HazardType, HazardType.from_string m.to_string = .ok m) ∧
    (∀ (s : String) (m : HazardType),
        HazardType.from_string s = .ok m ↔ pyUpper s = m.name) ∧
    (∀ s : String, (∀ m : HazardType, pyUpper s ≠ m.name) →
        HazardType.from_string s = .error .invalidValue) ∧
    (∀ m : HazardType, m.to_string = pyLower m.name) ∧
    (∀ m : ImageType, ImageType.from_string m.to_string = .ok m) ∧
    (∀ (s : String) (m : ImageType),
        ImageType.from_string s = .ok m ↔ pyUpper s = m.name) ∧
    (∀ s : String, (∀ m : ImageType, pyUpper s ≠ m.name) →
        ImageType.from_string s = .error .invalidValue) ∧
    (∀ m : ImageType, m.to_string = pyLower m.name) ∧
    (∀ m : SatelliteEnum, SatelliteEnum.from_string m.to_string = .ok m) ∧
    (∀ (s : String) (m : SatelliteEnum),
        SatelliteEnum.from_string s = .ok m ↔ pyUpper s = m.name) ∧
    (∀ s : String, (∀ m : SatelliteEnum, pyUpper s ≠ m.name) →
        SatelliteEnum.from_string s = .error .invalidValue) ∧
    (∀ m : SatelliteEnum,
        m.to_string = pyUpper m.name ∧ m.to_string = m.name) := by
  refine ⟨fun m => by cases m <;> decide,
    hazardType_from_string_iff,
    hazardType_from_string_unknown,
    fun m => rfl,
    fun m => by cases m <;> decide,
    imageType_from_string_iff,
    imageType_from_string_unknown,
    fun m => rfl,
    fun m => by cases m <;> decide,
    satelliteEnum_from_string_iff,
    satelliteEnum_from_string_unknown,
    fun m => by cases m <;> exact ⟨rfl, by decide⟩⟩

/-- Witness for C6: `"typhoon"` is not a hazard type. -/
theorem enum_string_roundtrip_witness :
    HazardType.from_string "typhoon" = .error .invalidValue :=
  enum_string_roundtrip.2.2.1 "typhoon" (fun m => by cases m <;> decide)

/-- C7: `ImageURL(u)` succeeds iff the `splitext` extension of `u`
(compared case-sensitively) is one of `.jpg`, `.png`, `.tif`, `.gif`;
otherwise it raises `InvalidValue`.  Nothing else about the string (no
scheme, host or reachability condition) affects the outcome. -/
theorem image_url_extension_spec :
    ∀ u : String,
      ((∃ x, ImageURL.make u = .ok x) ↔ (splitext u).2 ∈ valid_extensions) ∧
        (ImageURL.make u = .ok ⟨u⟩ ∨ ImageURL.make u = .error .invalidValue) ∧
        ((splitext u).2 ∉ valid_extensions →
          ImageURL.make u = .error .invalidValue) := by
  intro u
  by_cases h : (splitext u).2 ∈ valid_extensions
  · have hmk : ImageURL.make u = .ok ⟨u⟩ := by
      unfold ImageURL.make ImageURL.is_valid_url
      rw [if_neg (not_not_intro h), if_pos rfl]
    rw [hmk]
    exact ⟨⟨fun _ => h, fun _ => ⟨⟨u⟩, rfl⟩⟩, Or.inl rfl,
      fun hc => absurd h hc⟩
  · have hmk : ImageURL.make u = .error .invalidValue := by
      unfold ImageURL.make ImageURL.is_valid_url
      rw [if_pos h, if_neg Bool.false_ne_true]
    rw [hmk]
    refine ⟨⟨fun hex => ?_, fun hmem => absurd hmem h⟩, Or.inr rfl,
      fun _ => rfl⟩
    obtain ⟨x, hx⟩ := hex
    exact Except.noConfusion hx

/-- Witness for C7: `"foo.bmp"` has extension `.bmp` and is rejected. -/
theorem image_url_extension_spec_witness :
    ImageURL.make "foo.bmp" = .error .invalidValue :=
  (image_url_extension_spec "foo.bmp").2.2 (by decide)

/-- C8: two `Satellite` values are equal (structurally, as the dataclass
defines equality on `satellite_id` and `ascending`) exactly when their
string forms agree, and equal values have equal hash keys (the hash is
computed from the string form). -/
theorem satellite_eq_iff_to_string_eq :
    ∀ a b : Satellite,
      (a = b ↔ a.to_string = b.to_string) ∧
        (a = b → a.hashKey = b.hashKey) := by decide

/-- Witness for C8: a satellite value hashes like itself. -/
theorem satellite_eq_iff_to_string_eq_witness :
    Satellite.hashKey ⟨.S1A, true⟩ = Satellite.hashKey ⟨.S1A, true⟩ :=
  (satellite_eq_iff_to_string_eq ⟨.S1A, true⟩ ⟨.S1A, true⟩).2 rfl
